import Mathlib

/-!
Verification of the CV-builder core (template renderer, scale-to-fit adapter,
export pipeline, completeness evaluator) against its specification.

The TypeScript/React source is embedded shallowly:
* the `CVData` data model becomes Lean structures (optional string fields are
  modelled as strings, with `""` the absent value, matching the source's
  initial values);
* JSX output becomes a `Node` tree (tag, className, serialized inline style,
  children); conditional JSX (`{cond && <.../>}`) becomes list concatenation
  of `if`-guarded singletons;
* JavaScript string truthiness (`s && ...`, `s || fallback`) becomes
  `jsTruthy` / `jsOrString`;
* `new Date(s).toLocaleDateString("en-US", {year:"numeric", month:"short"})`
  is modelled for the ISO `YYYY-MM` / `YYYY-MM-DD` strings the app produces
  (month form inputs and sample fixtures), with every other non-empty string
  yielding the JS "Invalid Date" rendering; the local timezone is taken to
  coincide with UTC;
* the stateful pieces (the legacy CSS-variable injection effect on
  `document.documentElement`, the PDF export handler) become explicit state
  passing over small state types.
-/

/- ===================== Data model (src/types/cv as used) ===================== -/

structure PersonalInfo where
  fullName : String
  jobTitle : String
  email : String
  phone : String
  address : String
  website : String
  photoUrl : String
deriving Repr, DecidableEq

structure WorkExperience where
  id : String
  jobTitle : String
  company : String
  startDate : String
  endDate : String
  current : Bool
  responsibilities : List String
deriving Repr, DecidableEq

structure Education where
  id : String
  degree : String
  fieldOfStudy : String
  institution : String
  startDate : String
  endDate : String
  grade : String
deriving Repr, DecidableEq

structure Skill where
  id : String
  name : String
  level : String
deriving Repr, DecidableEq

/-- The source's `Language` record (renamed: `Language` exists in Mathlib). -/
structure LanguageEntry where
  id : String
  name : String
  proficiency : String
deriving Repr, DecidableEq

structure Certification where
  id : String
  name : String
  issuer : String
  date : String
  expiryDate : String
deriving Repr, DecidableEq

structure Reference where
  id : String
  name : String
  email : String
  phone : String
  organization : String
deriving Repr, DecidableEq

structure CVData where
  personalInfo : PersonalInfo
  summary : String
  workExperience : List WorkExperience
  education : List Education
  skills : List Skill
  languages : List LanguageEntry
  certifications : List Certification
  references : List Reference
deriving Repr, DecidableEq

structure CVTemplate where
  id : String
  hasPhoto : Bool
  columns : Nat
  color : String
deriving Repr, DecidableEq

/-- The four templates of CVBuilder's `templates` array (fields used by the
renderer; `name`/`description`/`features` are chooser chrome). -/
def professionalTemplate : CVTemplate := ⟨"professional", true, 2, "blue"⟩

def creativeTemplate : CVTemplate := ⟨"creative", true, 1, "purple"⟩

def executiveTemplate : CVTemplate := ⟨"executive", true, 2, "green"⟩

def minimalTemplate : CVTemplate := ⟨"minimal", false, 1, "gray"⟩

/-- CVBuilder's `initialCVData`: every field empty. -/
def initialCVData : CVData :=
  { personalInfo :=
      { fullName := "", jobTitle := "", email := "", phone := "", address := ""
        website := "", photoUrl := "" }
    summary := ""
    workExperience := []
    education := []
    skills := []
    languages := []
    certifications := []
    references := [] }

/- ===================== JavaScript string semantics helpers ===================== -/

/-- JS truthiness of a string: only `""` is falsy. -/
def jsTruthy (s : String) : Bool := s ≠ ""

/-- JS `a || b` on strings (`""` falls through to the fallback). -/
def jsOrString (a b : String) : String := if a = "" then b else a

/- ===================== formatDate (CVPreview) ===================== -/

structure ParsedDate where
  year : Nat
  month : Nat
deriving Repr, DecidableEq

/-- Split a character list at `'-'` separators (the shape of `s.split("-")`). -/
def splitOnDashAux : List Char → List Char → List String
  | [], acc => [String.mk acc.reverse]
  | c :: cs, acc =>
      if c = '-' then String.mk acc.reverse :: splitOnDashAux cs []
      else splitOnDashAux cs (c :: acc)

def splitOnDash (s : String) : List String := splitOnDashAux s.data []

def isDigits (s : String) : Bool := s.data ≠ [] && s.data.all Char.isDigit

/-- Numeric value of an all-digit string. -/
def digitsToNat (s : String) : Nat :=
  s.data.foldl (fun n c => n * 10 + (c.toNat - '0'.toNat)) 0

def isLeapYear (y : Nat) : Bool := (y % 4 = 0 && y % 100 ≠ 0) || y % 400 = 0

def daysInMonth (y m : Nat) : Nat :=
  if m = 2 then (if isLeapYear y then 29 else 28)
  else if m = 4 || m = 6 || m = 9 || m = 11 then 30
  else 31

/-- Model of `new Date(dateString)` for the date-string shapes this app feeds
it: the ISO forms `YYYY-MM` and `YYYY-MM-DD` (month inputs and sample
fixtures). Any other non-empty string produces an invalid date (`none`),
as JS `Date` parsing does for out-of-range or non-ISO text. -/
def parseJsDate (s : String) : Option ParsedDate :=
  match splitOnDash s with
  | [y, m] =>
      if isDigits y && y.data.length = 4 && isDigits m && m.data.length = 2 then
        let yn := digitsToNat y
        let mn := digitsToNat m
        if 1 ≤ mn ∧ mn ≤ 12 then some ⟨yn, mn⟩ else none
      else none
  | [y, m, d] =>
      if isDigits y && y.data.length = 4 && isDigits m && m.data.length = 2
          && isDigits d && d.data.length = 2 then
        let yn := digitsToNat y
        let mn := digitsToNat m
        let dn := digitsToNat d
        if 1 ≤ mn ∧ mn ≤ 12 ∧ 1 ≤ dn ∧ dn ≤ daysInMonth yn mn then
          some ⟨yn, mn⟩
        else none
      else none
  | _ => none

/-- `toLocaleDateString("en-US", \x7bmonth: "short"\x7d)` month abbreviations. -/
def monthShortName : Nat → String
  | 1 => "Jan" | 2 => "Feb" | 3 => "Mar" | 4 => "Apr"
  | 5 => "May" | 6 => "Jun" | 7 => "Jul" | 8 => "Aug"
  | 9 => "Sep" | 10 => "Oct" | 11 => "Nov" | 12 => "Dec"
  | _ => ""

/-- CVPreview's `formatDate`: `""` stays `""`; otherwise
`new Date(dateString).toLocaleDateString("en-US", \x7byear: "numeric", month: "short"\x7d)`,
which renders `"MMM YYYY"` for a valid date and `"Invalid Date"` for an
unparseable one. -/
def formatDate (dateString : String) : String :=
  if dateString = "" then ""
  else
    match parseJsDate dateString with
    | some d => monthShortName d.month ++ " " ++ toString d.year
    | none => "Invalid Date"

/-- Does `s` have the shape "\x7babbreviated month\x7d \x7bsomething\x7d", i.e. start with
one of the twelve en-US short month names followed by a space? -/
def startsWithShortMonth (s : String) : Bool :=
  (["Jan", "Feb", "Mar", "Apr", "May", "Jun", "Jul", "Aug", "Sep", "Oct",
    "Nov", "Dec"]).any (fun m => (m ++ " ").data.isPrefixOf s.data)

/- ===================== JS object property lookup ===================== -/

/-- The member names every plain object literal inherits from
`Object.prototype` (ECMA-262, including the Annex B accessors present in
browsers). A bare bracket lookup `obj[key]` on an object literal consults
these after the object's own properties. -/
def objectPrototypeKeys : List String :=
  ["constructor", "hasOwnProperty", "isPrototypeOf", "propertyIsEnumerable",
   "toLocaleString", "toString", "valueOf", "__proto__", "__defineGetter__",
   "__defineSetter__", "__lookupGetter__", "__lookupSetter__"]

/-- The outcome of a JS bracket lookup on an object literal: an own
property, a member inherited from `Object.prototype` (a function or
accessor value — truthy and non-nullish), or nothing (JS undefined). -/
inductive JsLookup (α : Type) where
  | own (a : α)
  | inheritedMember (name : String)
  | missing
deriving Repr, DecidableEq

/-- `obj[key]` on an object literal whose own properties are `ownProps`. -/
def jsLookup {α : Type} (ownProps : String → Option α) (key : String) : JsLookup α :=
  match ownProps key with
  | some a => .own a
  | none => if key ∈ objectPrototypeKeys then .inheritedMember key else .missing

/- ===================== getSkillLevel (CVPreview) ===================== -/

/-- The own properties of the `levels` object literal inside `getSkillLevel`. -/
def skillLevels (level : String) : Option Nat :=
  if level = "Beginner" then some 25
  else if level = "Intermediate" then some 50
  else if level = "Advanced" then some 75
  else if level = "Expert" then some 100
  else none

/-- What `getSkillLevel` evaluates to: a number from the table (or the 50
default), or an `Object.prototype` member that leaked through the bracket
lookup. -/
inductive SkillLevelResult where
  | num (n : Nat)
  | jsFunction (name : String)
deriving Repr, DecidableEq

/-- CVPreview's `getSkillLevel`: `levels[level] ?? 50` (the legacy variant's
`levels[...] || 50` agrees everywhere: table values are truthy and
non-nullish, inherited prototype members are too, and `undefined` is both
falsy and nullish). The fallback fires only when the bracket lookup is
`undefined`, so a prototype member name such as "toString" yields the
inherited function, not 50. -/
def getSkillLevel (level : String) : SkillLevelResult :=
  match jsLookup skillLevels level with
  | .own n => .num n
  | .inheritedMember name => .jsFunction name
  | .missing => .num 50

/-- The text a `width: ...%` template literal makes of a `getSkillLevel`
result (a function value stringifies to its source form; modelled with the
usual native-function rendering). -/
def skillLevelWidthStr : SkillLevelResult → String
  | .num n => toString n
  | .jsFunction name => "function " ++ name ++ "() \x7b [native code] \x7d"

/- ===================== getColorValues (CVPreview) ===================== -/

structure ColorTriple where
  primary : String
  secondary : String
  accent : String
deriving Repr, DecidableEq

/-- The `colorMap` object inside `getColorValues`, as a lookup of its six own
properties. -/
def colorMap (colorName : String) : Option ColorTriple :=
  if colorName = "slate" then
    some ⟨"215, 25%, 27%", "215, 25%, 95%", "215, 25%, 20%"⟩
  else if colorName = "rose" then
    some ⟨"11, 70%, 84%", "11, 70%, 95%", "11, 70%, 74%"⟩
  else if colorName = "emerald" then
    some ⟨"164, 44%, 80%", "164, 44%, 95%", "164, 44%, 70%"⟩
  else if colorName = "amber" then
    some ⟨"0, 0%, 49%", "0, 0%, 95%", "0, 0%, 39%"⟩
  else if colorName = "blue" then
    some ⟨"217, 91%, 60%", "217, 91%, 95%", "217, 91%, 50%"⟩
  else if colorName = "orange" then
    some ⟨"20, 90%, 48%", "20, 90%, 95%", "20, 90%, 40%"⟩
  else none

/-- The slate palette, `colorMap.slate`. -/
def slateColors : ColorTriple := ⟨"215, 25%, 27%", "215, 25%, 95%", "215, 25%, 20%"⟩

/-- The modern CVPreview's `getColorValues`: the key is accepted only when
`Object.prototype.hasOwnProperty.call(colorMap, colorName)` holds, so the
lookup sees `colorMap`'s own properties exactly, falling back to
`colorMap.slate` for everything else. This is the variant the rendered
`colorVars` use. -/
def getColorValues (colorName : String) : ColorTriple :=
  (colorMap colorName).getD slateColors

/-- What the legacy `getColorValues` evaluates to: a palette triple, or an
inherited `Object.prototype` member that leaked through the bracket
lookup. -/
inductive ColorLookupResult where
  | triple (c : ColorTriple)
  | jsFunction (name : String)
deriving Repr, DecidableEq

/-- The legacy CVPreview's `getColorValues`:
`colorMap[colorName as keyof typeof colorMap] || colorMap.slate`. The bare
bracket lookup consults the prototype chain, and an inherited member is
truthy, so `||` does not replace it with the slate palette. -/
def legacyGetColorValues (colorName : String) : ColorLookupResult :=
  match jsLookup colorMap colorName with
  | .own c => .triple c
  | .inheritedMember name => .jsFunction name
  | .missing => .triple slateColors

/- ===================== calculateScale (CVBuilder) ===================== -/

/-- The fixed on-screen canvas width used by `calculateScale` (A4 at 96 dpi). -/
def cvWidth : ℚ := 794

/-- The scale computation in CVBuilder's `calculateScale`:
`Math.min(containerWidth / cvWidth, 1)`. -/
def computeScale (containerWidth : ℚ) : ℚ :=
  min (containerWidth / cvWidth) 1

/- ===================== calculateCompleteness (CVProgress) ===================== -/

structure SectionStatus where
  name : String
  complete : Bool
deriving Repr, DecidableEq

structure Completeness where
  percentage : ℤ
  sections : List SectionStatus
deriving Repr, DecidableEq

/-- CVProgress's `calculateCompleteness`. JS `&&`-chains over strings are used
as truthiness of every link; `Math.round((completed / 5) * 100)` is modelled
with exact rationals (for `completed` in 0..5 the float product rounds to the
same multiple of 20 the rationals give). -/
def calculateCompleteness (data : CVData) : Completeness :=
  let personalComplete := jsTruthy data.personalInfo.fullName &&
    jsTruthy data.personalInfo.email && jsTruthy data.personalInfo.phone
  let summaryComplete := jsTruthy data.summary && decide (data.summary.length > 20)
  let workComplete := decide (data.workExperience.length > 0) &&
    data.workExperience.any (fun exp =>
      jsTruthy exp.jobTitle && jsTruthy exp.company && jsTruthy exp.startDate)
  let educationComplete := decide (data.education.length > 0) &&
    data.education.any (fun edu => jsTruthy edu.degree && jsTruthy edu.institution)
  let skillsComplete := decide (data.skills.length > 0) &&
    data.skills.any (fun skill => jsTruthy skill.name)
  let sections : List SectionStatus :=
    [⟨"Personal Information", personalComplete⟩,
     ⟨"Summary", summaryComplete⟩,
     ⟨"Work Experience", workComplete⟩,
     ⟨"Education", educationComplete⟩,
     ⟨"Skills", skillsComplete⟩]
  let totalSections : ℕ := 5
  let completedSections := (sections.filter (fun s => s.complete)).length
  let percentage : ℤ := round ((completedSections : ℚ) / (totalSections : ℚ) * 100)
  ⟨percentage, sections⟩

/- ===================== handleDownloadPDF (CVBuilder, export pipeline) ===================== -/

inductive ExportOutcome where
  | noop
  | success
  | failure
deriving Repr, DecidableEq

/-- The environment an export run faces: whether `exportRef.current` is
mounted, the selected template id (null before selection), whether
`document.fonts.ready` rejects, and whether the rasterization collaborator
(`html2pdf().set(opt).from(element).save()`) throws. The per-image waits
resolve on both load and error, so they never reject and need no flag. -/
structure ExportEnv where
  exportRefPresent : Bool
  selectedTemplate : Option String
  fontsReadyRejects : Bool
  rasterizeThrows : Bool
deriving Repr, DecidableEq

/-- `try { await document.fonts.ready } catch {}` — a rejection is swallowed
by the empty catch and export continues. -/
def awaitFontsBestEffort (env : ExportEnv) : Except String Unit :=
  match (if env.fontsReadyRejects then Except.error "fonts" else Except.ok () :
      Except String Unit) with
  | .ok _ => .ok ()
  | .error _ => .ok ()

/-- The body of `handleDownloadPDF`'s outer `try` block: success toast,
best-effort font wait, image waits (always resolve), then the
rasterization/pagination collaborator, whose exception propagates to the
outer catch. -/
def exportTryBlock (env : ExportEnv) : Except String ExportOutcome :=
  match awaitFontsBestEffort env with
  | .error e => .error e
  | .ok _ =>
      if env.rasterizeThrows then .error "Error generating PDF"
      else .ok .success

/-- CVBuilder's `handleDownloadPDF`: bail out (no-op) when the export subtree
ref is missing or no template is selected; otherwise run the try block and
convert any exception into the failure-toast outcome. -/
def handleDownloadPDF (env : ExportEnv) : ExportOutcome :=
  if !env.exportRefPresent || env.selectedTemplate.isNone then .noop
  else
    match exportTryBlock env with
    | .ok o => o
    | .error _ => .failure

/-- `true` when some step of the export sequence threw/rejected. -/
def exportStepThrew (env : ExportEnv) : Bool :=
  env.fontsReadyRejects || env.rasterizeThrows

/- ===================== VisualTree embedding of CVPreview's JSX ===================== -/

/-- A rendered tree node: element tag, className string, a serialized bag of
the remaining attributes (inline style / image src; `""` when none), and
children. JSX text interpolations become `text` leaves; `{cond && <.../>}`
becomes an `if`-guarded singleton list spliced into the children. -/
inductive Node where
  | text (s : String)
  | elem (tag : String) (cls : String) (attrs : String) (children : List Node)

/-- Immediate `text`-node children. -/
def directTexts : List Node → List String
  | [] => []
  | .text s :: ns => s :: directTexts ns
  | .elem _ _ _ _ :: ns => directTexts ns

mutual

/-- All texts sitting directly inside elements with the given tag, in
document order. -/
def tagTextsNode (tag : String) : Node → List String
  | .text _ => []
  | .elem t _ _ children =>
      (if t = tag then directTexts children else []) ++ tagTextsList tag children

def tagTextsList (tag : String) : List Node → List String
  | [] => []
  | n :: ns => tagTextsNode tag n ++ tagTextsList tag ns

end

/-- CVPreview's `DEFAULT_AVATAR_URL`. -/
def DEFAULT_AVATAR_URL : String :=
  "https://encrypted-tbn0.gstatic.com/images?q=tbn:ANd9GcSUqDBA8jnL_ezUoa8s_GgnboMkEeE4M7-LyA&s"

structure TemplateStyles where
  sidebarBg : String
  primaryColor : String
  accentColor : String
  borderColor : String
  skillBar : String
  headerStyle : String
deriving Repr, DecidableEq

/-- The `baseStyle` constant of `getTemplateStyles`. -/
def baseStyle : String := "transition-all duration-300"

/-- CVPreview's `getTemplateStyles`: the shared `dynamicStyles` bag with a
per-template header treatment (creative additionally swaps the sidebar tint
and skill-bar class); unknown ids keep the plain base style. -/
def getTemplateStyles (template : CVTemplate) : TemplateStyles :=
  let dynamicStyles : TemplateStyles :=
    { sidebarBg := "cv-sidebar-bg", primaryColor := "cv-primary-text",
      accentColor := "cv-accent-bg", borderColor := "cv-primary-border",
      skillBar := "cv-skill-bar", headerStyle := "" }
  if template.id = "professional" then
    { dynamicStyles with headerStyle := baseStyle ++ " cv-header-professional" }
  else if template.id = "creative" then
    { dynamicStyles with
      sidebarBg := "cv-sidebar-creative"
      headerStyle := baseStyle ++ " cv-header-creative"
      skillBar := "cv-skill-bar-creative" }
  else if template.id = "executive" then
    { dynamicStyles with headerStyle := baseStyle ++ " cv-header-executive" }
  else if template.id = "minimal" then
    { dynamicStyles with headerStyle := baseStyle ++ " cv-header-minimal" }
  else
    { dynamicStyles with headerStyle := baseStyle }

/-- The scoped rule sheet rendered into the `style` element of both layouts. -/
def sharedCvCss : String :=
  ".cv-sidebar-bg \x7b background-color: hsl(var(--template-secondary)); \x7d " ++
  ".cv-sidebar-creative \x7b background-color: hsl(var(--template-secondary)); \x7d " ++
  ".cv-primary-text \x7b color: hsl(var(--template-primary)); \x7d " ++
  ".cv-accent-bg \x7b background-color: hsl(var(--template-primary)); \x7d " ++
  ".cv-primary-border \x7b border-color: hsl(var(--template-primary)); \x7d " ++
  ".cv-skill-bar \x7b background-color: hsl(var(--template-primary)); \x7d " ++
  ".cv-skill-bar-creative \x7b background-color: hsl(var(--template-primary)); \x7d " ++
  ".cv-header-professional \x7b background: linear-gradient(to right, hsl(var(--template-primary)), hsl(var(--template-accent))); \x7d " ++
  ".cv-header-creative \x7b background-color: hsl(var(--template-primary)); \x7d " ++
  ".cv-header-executive \x7b background-color: hsl(var(--template-primary)); \x7d " ++
  ".cv-header-minimal \x7b border-bottom: 2px solid hsl(var(--template-primary)); \x7d"

def styleNode : Node := Node.elem "style" "" "" [Node.text sharedCvCss]

/-- The per-instance scoped CSS variables (`colorVars`) serialized as the
root's inline style. -/
def colorVarsStyle (template : CVTemplate) : String :=
  "--template-primary: " ++ (getColorValues template.color).primary ++
  "; --template-secondary: " ++ (getColorValues template.color).secondary ++
  "; --template-accent: " ++ (getColorValues template.color).accent

/-- `unboundedStyle`: fixed width with content-driven min-height when
unbounded (mm for PDF, px for screen), empty otherwise. -/
def unboundedStyleStr (unbounded isPDF : Bool) : String :=
  if unbounded then
    (if isPDF then "width: 210mm; min-height: 297mm; " else "width: 794px; min-height: 1123px; ")
  else ""

/-- The end-date side of an experience entry's date range:
`exp.current ? "Present" : formatDate(exp.endDate)` appended after the
start date. -/
def expDateText (exp : WorkExperience) : String :=
  formatDate exp.startDate ++ " - " ++
    (if exp.current then "Present" else formatDate exp.endDate)

/-- `exp.responsibilities.filter(r => r.trim()).map(...)`. -/
def respItems (rs : List String) : List Node :=
  (rs.filter (fun r => jsTruthy r.trim)).map
    (fun resp => Node.elem "li" "text-sm leading-relaxed" "" [Node.text resp])

def respListTwoCol (rs : List String) : List Node :=
  if rs.length > 0 then
    [Node.elem "ul" "list-disc list-inside text-muted-foreground space-y-1 ml-4" ""
      (respItems rs)]
  else []

def respListSingle (rs : List String) : List Node :=
  if rs.length > 0 then
    [Node.elem "ul" "list-disc list-inside text-muted-foreground space-y-1" ""
      (respItems rs)]
  else []

/-- The creative template's accent bar beside experience/education entries. -/
def creativeBar (st : TemplateStyles) (tid : String) : List Node :=
  if tid = "creative" then
    [Node.elem "div" ("absolute left-0 top-0 w-1 h-full " ++ st.accentColor ++ " rounded-full") "" []]
  else []

def expItemTwoCol (st : TemplateStyles) (tid : String) (exp : WorkExperience) : Node :=
  Node.elem "div" "relative" ""
    (creativeBar st tid ++
     [Node.elem "div" (if tid = "creative" then "pl-4" else "") ""
        ([Node.elem "div" "flex justify-between items-start mb-2" ""
            [Node.elem "div" "" ""
               [Node.elem "h4" "font-semibold text-foreground text-base" "" [Node.text exp.jobTitle],
                Node.elem "p" ("font-medium " ++ st.primaryColor) "" [Node.text exp.company]],
             Node.elem "div" "text-right text-xs text-muted-foreground" ""
               [Node.elem "div" "flex items-center gap-1" ""
                  [Node.elem "Calendar" "w-3 h-3" "" [],
                   Node.text (expDateText exp)]]]] ++
         respListTwoCol exp.responsibilities)])

def eduItemTwoCol (st : TemplateStyles) (tid : String) (edu : Education) : Node :=
  Node.elem "div" "relative" ""
    (creativeBar st tid ++
     [Node.elem "div" (if tid = "creative" then "pl-4" else "") ""
        ([Node.elem "div" "flex justify-between items-start mb-2" ""
            [Node.elem "div" "" ""
               [Node.elem "h4" "font-semibold text-foreground text-base" "" [Node.text edu.degree],
                Node.elem "p" ("font-medium " ++ st.primaryColor) "" [Node.text edu.fieldOfStudy],
                Node.elem "p" "text-sm text-muted-foreground" "" [Node.text edu.institution]],
             Node.elem "div" "text-right text-xs text-muted-foreground" ""
               [Node.elem "div" "flex items-center gap-1" ""
                  [Node.elem "Calendar" "w-3 h-3" "" [],
                   Node.text (formatDate edu.startDate ++ " - " ++ formatDate edu.endDate)]]]] ++
         (if jsTruthy edu.grade then
            [Node.elem "div" "text-sm text-muted-foreground" "" [Node.text ("Grade: " ++ edu.grade)]]
          else []))])

/-- The sidebar's h3 section heading. -/
def sidebarHeading (st : TemplateStyles) (title : String) : Node :=
  Node.elem "h3"
    ("font-semibold " ++ st.primaryColor ++ " mb-3 border-b " ++ st.borderColor ++ "/30 pb-1 text-sm")
    "" [Node.text title]

def sidebarContactRow (st : TemplateStyles) (icon spanCls value : String) : Node :=
  Node.elem "div" "flex items-center gap-2 text-muted-foreground" ""
    [Node.elem icon ("w-3 h-3 flex-shrink-0 " ++ st.primaryColor) "" [],
     Node.elem "span" spanCls "" [Node.text value]]

/-- The two-column sidebar's Contact block. Its heading is rendered
unconditionally; only the individual rows are data-guarded. -/
def contactSectionSidebar (st : TemplateStyles) (pi : PersonalInfo) : Node :=
  Node.elem "div" "" ""
    [sidebarHeading st "Contact",
     Node.elem "div" "space-y-2" ""
       ((if jsTruthy pi.email then [sidebarContactRow st "Mail" "text-xs break-all" pi.email] else []) ++
        (if jsTruthy pi.phone then [sidebarContactRow st "Phone" "text-xs" pi.phone] else []) ++
        (if jsTruthy pi.address then [sidebarContactRow st "MapPin" "text-xs" pi.address] else []) ++
        (if jsTruthy pi.website then [sidebarContactRow st "Globe" "text-xs break-all" pi.website] else []))]

def photoSectionSidebar (st : TemplateStyles) (pi : PersonalInfo) : Node :=
  Node.elem "div" "text-center" ""
    [Node.elem "img"
      ("w-24 h-24 rounded-full mx-auto object-cover border-4 " ++ st.borderColor ++ "/20 shadow-md")
      ("src: " ++ jsOrString pi.photoUrl DEFAULT_AVATAR_URL) []]

def skillRowSidebar (st : TemplateStyles) (skill : Skill) : Node :=
  Node.elem "div" "" ""
    [Node.elem "div" "flex justify-between items-center mb-1" ""
       [Node.elem "span" "text-xs font-medium" "" [Node.text skill.name],
        Node.elem "span" "text-xs text-muted-foreground" "" [Node.text skill.level]],
     Node.elem "div" "w-full bg-muted/50 rounded-full h-2" ""
       [Node.elem "div" (st.skillBar ++ " h-2 rounded-full transition-all duration-500")
          ("width: " ++ skillLevelWidthStr (getSkillLevel skill.level) ++ "%") []]]

def languageRowSidebar (lang : LanguageEntry) : Node :=
  Node.elem "div" "flex items-center justify-between" ""
    [Node.elem "span" "text-xs font-medium" "" [Node.text lang.name],
     Node.elem "span" "text-xs text-muted-foreground" "" [Node.text lang.proficiency]]

def certItemSidebar (st : TemplateStyles) (cert : Certification) : Node :=
  Node.elem "div" "" ""
    [Node.elem "div" "flex items-start gap-2" ""
       [Node.elem "Award" ("w-3 h-3 flex-shrink-0 mt-0.5 " ++ st.primaryColor) "" [],
        Node.elem "div" "" ""
          [Node.elem "div" "text-xs font-medium text-foreground" "" [Node.text cert.name],
           Node.elem "div" "text-xs text-muted-foreground" "" [Node.text cert.issuer],
           Node.elem "div" "text-xs text-muted-foreground" "" [Node.text (formatDate cert.date)]]]]

def refItemSidebar (st : TemplateStyles) (ref : Reference) : Node :=
  Node.elem "div" "" ""
    [Node.elem "div" "flex items-start gap-2" ""
       [Node.elem "Users" ("w-3 h-3 flex-shrink-0 mt-0.5 " ++ st.primaryColor) "" [],
        Node.elem "div" "" ""
          [Node.elem "div" "text-xs font-medium text-foreground" "" [Node.text ref.name],
           Node.elem "div" "text-xs text-muted-foreground" "" [Node.text ref.organization],
           Node.elem "div" "text-xs text-muted-foreground" "" [Node.text ref.email],
           Node.elem "div" "text-xs text-muted-foreground" "" [Node.text ref.phone]]]]

/-- The two-column left sidebar. -/
def twoColSidebar (st : TemplateStyles) (template : CVTemplate) (data : CVData) : Node :=
  Node.elem "div" ("w-1/3 " ++ st.sidebarBg ++ " p-6 space-y-6") ""
    ((if template.hasPhoto then [photoSectionSidebar st data.personalInfo] else []) ++
     [contactSectionSidebar st data.personalInfo] ++
     (if data.skills.length > 0 then
        [Node.elem "div" "" ""
           [sidebarHeading st "Skills",
            Node.elem "div" "space-y-3" "" (data.skills.map (skillRowSidebar st))]]
      else []) ++
     (if data.languages.length > 0 then
        [Node.elem "div" "" ""
           [sidebarHeading st "Languages",
            Node.elem "div" "space-y-2" "" (data.languages.map languageRowSidebar)]]
      else []) ++
     (if data.certifications.length > 0 then
        [Node.elem "div" "" ""
           [sidebarHeading st "Certifications",
            Node.elem "div" "space-y-3" "" (data.certifications.map (certItemSidebar st))]]
      else []) ++
     (if data.references.length > 0 then
        [Node.elem "div" "" ""
           [sidebarHeading st "References",
            Node.elem "div" "space-y-3" "" (data.references.map (refItemSidebar st))]]
      else []))

/-- The two-column right-content header (non-minimal colored band, or the
minimal bordered plain header). -/
def twoColHeader (st : TemplateStyles) (tid : String) (pi : PersonalInfo) : Node :=
  Node.elem "div" (if tid = "minimal" then st.headerStyle ++ " pb-4" else "border-b border-border pb-4") ""
    ((if tid ≠ "minimal" then
        [Node.elem "div" (st.headerStyle ++ " text-white p-4 rounded-lg mb-4 shadow-md") ""
           [Node.elem "h1" "text-2xl font-bold mb-1" "" [Node.text (jsOrString pi.fullName "Your Name")],
            Node.elem "p" "text-lg opacity-90" "" [Node.text (jsOrString pi.jobTitle "Your Job Title")]]]
      else []) ++
     (if tid = "minimal" then
        [Node.elem "h1" ("text-2xl font-bold " ++ st.primaryColor ++ " mb-1") ""
           [Node.text (jsOrString pi.fullName "Your Name")],
         Node.elem "p" "text-lg text-muted-foreground" ""
           [Node.text (jsOrString pi.jobTitle "Your Job Title")]]
      else []))

/-- The two-column right content: header, then data-guarded summary, work
experience and education sections. -/
def twoColContent (st : TemplateStyles) (tid : String) (data : CVData) : Node :=
  Node.elem "div" "flex-1 p-6 space-y-6" ""
    ([twoColHeader st tid data.personalInfo] ++
     (if jsTruthy data.summary then
        [Node.elem "div" "" ""
           [Node.elem "h3" ("font-semibold " ++ st.primaryColor ++ " mb-3 text-lg") ""
              [Node.text "Professional Summary"],
            Node.elem "p" "text-muted-foreground leading-relaxed" "" [Node.text data.summary]]]
      else []) ++
     (if data.workExperience.length > 0 then
        [Node.elem "div" "" ""
           [Node.elem "h3" ("font-semibold " ++ st.primaryColor ++ " mb-4 text-lg") ""
              [Node.text "Work Experience"],
            Node.elem "div" "space-y-6" "" (data.workExperience.map (expItemTwoCol st tid))]]
      else []) ++
     (if data.education.length > 0 then
        [Node.elem "div" "" ""
           [Node.elem "h3" ("font-semibold " ++ st.primaryColor ++ " mb-4 text-lg") ""
              [Node.text "Education"],
            Node.elem "div" "space-y-6" "" (data.education.map (eduItemTwoCol st tid))]]
      else []))

/-- The two-column layout's `cvContent`. -/
def twoColumnLayout (data : CVData) (template : CVTemplate)
    (isPreview isPDF unbounded : Bool) : Node :=
  Node.elem "div"
    ((if unbounded then "" else "cv-a4") ++ " " ++
     (if isPDF then "bg-white" else "bg-background") ++ " " ++
     (if isPDF then "" else "border border-border rounded-lg shadow-card") ++ " " ++
     (if unbounded then "" else "overflow-hidden") ++ " " ++
     (if isPreview then "text-xs" else "text-sm"))
    (unboundedStyleStr unbounded isPDF ++ colorVarsStyle template)
    [styleNode,
     Node.elem "div" "flex h-full" ""
       [twoColSidebar (getTemplateStyles template) template data,
        twoColContent (getTemplateStyles template) template.id data]]

/-- One inline contact item of the single-column header. -/
def headerContactRow (icon value : String) : Node :=
  Node.elem "div" "flex items-center gap-1" ""
    [Node.elem icon "w-4 h-4" "" [], Node.text value]

def headerContactRows (pi : PersonalInfo) : List Node :=
  (if jsTruthy pi.email then [headerContactRow "Mail" pi.email] else []) ++
  (if jsTruthy pi.phone then [headerContactRow "Phone" pi.phone] else []) ++
  (if jsTruthy pi.address then [headerContactRow "MapPin" pi.address] else [])

/-- The single-column stacked header (colored band, or minimal's bordered
plain header), with optional photo and the inline contact line. -/
def singleColHeader (st : TemplateStyles) (template : CVTemplate) (pi : PersonalInfo) : Node :=
  Node.elem "div"
    ("text-center " ++
     (if template.id = "minimal" then st.headerStyle ++ " pb-6" else "border-b border-border pb-6")) ""
    ((if template.id ≠ "minimal" then
        [Node.elem "div" (st.headerStyle ++ " text-white p-6 rounded-lg mb-6 shadow-md") ""
           ((if template.hasPhoto then
               [Node.elem "img"
                  "w-24 h-24 rounded-full mx-auto object-cover border-4 border-white/20 mb-4 shadow-lg"
                  ("src: " ++ jsOrString pi.photoUrl DEFAULT_AVATAR_URL) []]
             else []) ++
            [Node.elem "h1" "text-3xl font-bold mb-2" "" [Node.text (jsOrString pi.fullName "Your Name")],
             Node.elem "p" "text-xl opacity-90 mb-4" "" [Node.text (jsOrString pi.jobTitle "Your Job Title")],
             Node.elem "div" "flex flex-wrap justify-center gap-4 text-sm text-white/80" ""
               (headerContactRows pi)])]
      else []) ++
     (if template.id = "minimal" then
        (if template.hasPhoto then
           [Node.elem "img"
              ("w-24 h-24 rounded-full mx-auto object-cover border-4 " ++ st.borderColor ++ "/20 mb-4 shadow-md")
              ("src: " ++ jsOrString pi.photoUrl DEFAULT_AVATAR_URL) []]
         else []) ++
        [Node.elem "h1" ("text-3xl font-bold " ++ st.primaryColor ++ " mb-2") ""
           [Node.text (jsOrString pi.fullName "Your Name")],
         Node.elem "p" "text-xl text-muted-foreground mb-4" ""
           [Node.text (jsOrString pi.jobTitle "Your Job Title")],
         Node.elem "div" "flex flex-wrap justify-center gap-4 text-sm text-muted-foreground" ""
           (headerContactRows pi)]
      else []))

/-- The single-column section heading (bordered h3). -/
def gridHeading (st : TemplateStyles) (title : String) : Node :=
  Node.elem "h3"
    ("font-semibold " ++ st.primaryColor ++ " mb-4 border-b " ++ st.borderColor ++ "/30 pb-1 text-lg")
    "" [Node.text title]

def expItemSingle (st : TemplateStyles) (tid : String) (exp : WorkExperience) : Node :=
  Node.elem "div" "relative" ""
    (creativeBar st tid ++
     [Node.elem "div" (if tid = "creative" then "pl-4" else "") ""
        ([Node.elem "div" "flex justify-between items-start mb-2" ""
            [Node.elem "div" "" ""
               [Node.elem "h4" "font-semibold text-foreground text-base" "" [Node.text exp.jobTitle],
                Node.elem "p" ("font-medium " ++ st.primaryColor) "" [Node.text exp.company]],
             Node.elem "div" "text-right text-sm text-muted-foreground" ""
               [Node.elem "div" "flex items-center gap-1" ""
                  [Node.elem "Calendar" "w-4 h-4" "" [],
                   Node.text (expDateText exp)]]]] ++
         respListSingle exp.responsibilities)])

def eduItemGrid (st : TemplateStyles) (edu : Education) : Node :=
  Node.elem "div" "" ""
    ([Node.elem "h4" "text-foreground font-medium" "" [Node.text edu.degree],
      Node.elem "p" "text-muted-foreground" "" [Node.text edu.fieldOfStudy],
      Node.elem "p" ("font-medium " ++ st.primaryColor) "" [Node.text edu.institution],
      Node.elem "div" "text-sm text-muted-foreground" ""
        [Node.text (formatDate edu.startDate ++ " - " ++ formatDate edu.endDate)]] ++
     (if jsTruthy edu.grade then
        [Node.elem "div" "text-sm text-muted-foreground" "" [Node.text ("Grade: " ++ edu.grade)]]
      else []))

def skillRowGrid (st : TemplateStyles) (skill : Skill) : Node :=
  Node.elem "div" "" ""
    [Node.elem "div" "flex justify-between items-center mb-1" ""
       [Node.elem "span" "text-sm font-medium" "" [Node.text skill.name],
        Node.elem "span" "text-sm text-muted-foreground" "" [Node.text skill.level]],
     Node.elem "div" "w-full bg-muted/50 rounded-full h-2" ""
       [Node.elem "div" (st.skillBar ++ " h-2 rounded-full transition-all duration-500")
          ("width: " ++ skillLevelWidthStr (getSkillLevel skill.level) ++ "%") []]]

def languageRowGrid (lang : LanguageEntry) : Node :=
  Node.elem "div" "flex items-center justify-between" ""
    [Node.elem "span" "text-sm font-medium" "" [Node.text lang.name],
     Node.elem "span" "text-sm text-muted-foreground" "" [Node.text lang.proficiency]]

def certItemGrid (st : TemplateStyles) (cert : Certification) : Node :=
  Node.elem "div" "" ""
    [Node.elem "div" "flex items-start gap-2" ""
       [Node.elem "Award" ("w-4 h-4 flex-shrink-0 mt-0.5 " ++ st.primaryColor) "" [],
        Node.elem "div" "" ""
          [Node.elem "div" "text-sm font-medium text-foreground" "" [Node.text cert.name],
           Node.elem "div" "text-sm text-muted-foreground" "" [Node.text cert.issuer],
           Node.elem "div" "text-sm text-muted-foreground" "" [Node.text (formatDate cert.date)]]]]

def refItemGrid (st : TemplateStyles) (ref : Reference) : Node :=
  Node.elem "div" "" ""
    [Node.elem "div" "flex items-start gap-2" ""
       [Node.elem "Users" ("w-4 h-4 flex-shrink-0 mt-0.5 " ++ st.primaryColor) "" [],
        Node.elem "div" "" ""
          [Node.elem "div" "text-sm font-medium text-foreground" "" [Node.text ref.name],
           Node.elem "div" "text-sm text-muted-foreground" "" [Node.text ref.organization],
           Node.elem "div" "text-sm text-muted-foreground" "" [Node.text ref.email],
           Node.elem "div" "text-sm text-muted-foreground" "" [Node.text ref.phone]]]]

/-- The single-column layout's `cvContent`: stacked header, summary, work
experience, an \x7beducation, skills\x7d grid, then a
\x7blanguages, certifications, references\x7d grid. -/
def singleColumnLayout (data : CVData) (template : CVTemplate)
    (isPreview isPDF unbounded : Bool) : Node :=
  Node.elem "div"
    ((if unbounded then "" else "cv-a4") ++ " " ++
     (if isPDF then "bg-white" else "bg-background") ++ " " ++
     (if isPDF then "" else "border border-border rounded-lg shadow-card") ++ " " ++
     (if unbounded then "" else "overflow-hidden") ++ " p-6 " ++
     (if isPreview then "text-xs" else "text-sm") ++ " space-y-6")
    (unboundedStyleStr unbounded isPDF ++ colorVarsStyle template)
    ([styleNode,
      singleColHeader (getTemplateStyles template) template data.personalInfo] ++
     (if jsTruthy data.summary then
        [Node.elem "div" "" ""
           [Node.elem "h3"
              ("font-semibold " ++ (getTemplateStyles template).primaryColor ++ " mb-3 border-b " ++
               (getTemplateStyles template).borderColor ++ "/30 pb-1 text-lg") ""
              [Node.text "Professional Summary"],
            Node.elem "p" "text-muted-foreground leading-relaxed" "" [Node.text data.summary]]]
      else []) ++
     (if data.workExperience.length > 0 then
        [Node.elem "div" "" ""
           [gridHeading (getTemplateStyles template) "Work Experience",
            Node.elem "div" "space-y-6" ""
              (data.workExperience.map (expItemSingle (getTemplateStyles template) template.id))]]
      else []) ++
     [Node.elem "div" "grid md:grid-cols-2 gap-6" ""
        ((if data.education.length > 0 then
            [Node.elem "div" "" ""
               [gridHeading (getTemplateStyles template) "Education",
                Node.elem "div" "space-y-4" ""
                  (data.education.map (eduItemGrid (getTemplateStyles template)))]]
          else []) ++
         (if data.skills.length > 0 then
            [Node.elem "div" "" ""
               [gridHeading (getTemplateStyles template) "Skills",
                Node.elem "div" "space-y-3" ""
                  (data.skills.map (skillRowGrid (getTemplateStyles template)))]]
          else []))] ++
     [Node.elem "div" "grid md:grid-cols-2 gap-6" ""
        ((if data.languages.length > 0 then
            [Node.elem "div" "" ""
               [gridHeading (getTemplateStyles template) "Languages",
                Node.elem "div" "space-y-2" "" (data.languages.map languageRowGrid)]]
          else []) ++
         (if data.certifications.length > 0 then
            [Node.elem "div" "" ""
               [gridHeading (getTemplateStyles template) "Certifications",
                Node.elem "div" "space-y-4" ""
                  (data.certifications.map (certItemGrid (getTemplateStyles template)))]]
          else []) ++
         (if data.references.length > 0 then
            [Node.elem "div" "" ""
               [gridHeading (getTemplateStyles template) "References",
                Node.elem "div" "space-y-4" ""
                  (data.references.map (refItemGrid (getTemplateStyles template)))]]
          else []))])

/-- CVPreview as a pure function of its props: choose the layout by
`template.columns`, and wrap in the `cv-page` container when
`isFullPagePDF`. -/
def renderCV (data : CVData) (template : CVTemplate)
    (isPreview isPDF isFullPagePDF unbounded : Bool) : Node :=
  if template.columns = 2 then
    let cvContent := twoColumnLayout data template isPreview isPDF unbounded
    if isFullPagePDF then Node.elem "div" "cv-page" "" [cvContent] else cvContent
  else
    let cvContent := singleColumnLayout data template isPreview isPDF unbounded
    if isFullPagePDF then Node.elem "div" "cv-page" "" [cvContent] else cvContent

/- ===================== Document-level style state (C1) ===================== -/

/-- The three `--template-*` custom properties on `document.documentElement`,
the shared mutable style state the legacy CVPreview variant writes. -/
structure DocumentRootStyles where
  templatePrimary : Option String
  templateSecondary : Option String
  templateAccent : Option String
deriving Repr, DecidableEq

def emptyDocumentRootStyles : DocumentRootStyles := ⟨none, none, none⟩

/-- The legacy CVPreview's `useEffect` body: three
`root.style.setProperty("--template-*", ...)` writes against the document
root, derived from the template color. -/
def legacyInjectTemplateColors (template : CVTemplate)
    (root : DocumentRootStyles) : DocumentRootStyles :=
  let colors := getColorValues template.color
  { root with
    templatePrimary := some colors.primary
    templateSecondary := some colors.secondary
    templateAccent := some colors.accent }

/-- The legacy effect's unmount cleanup: three `removeProperty` calls. -/
def legacyRemoveTemplateColors (_root : DocumentRootStyles) : DocumentRootStyles :=
  ⟨none, none, none⟩

/-- The modern CVPreview variant passes its colors as per-instance scoped
`colorVars` on the rendered root and performs no document-level write, so
its effect on the shared style state is the identity. -/
def modernRenderDocumentEffect (_template : CVTemplate)
    (root : DocumentRootStyles) : DocumentRootStyles := root

/-- Concrete data for the C2 witness: one current job with a stored end
date. -/
def witnessCurrentExp : WorkExperience :=
  { id := "1", jobTitle := "Senior Software Engineer", company := "TechCorp Inc."
    startDate := "2022-01", endDate := "2023-06", current := true
    responsibilities := [] }

def witnessCVData : CVData :=
  { initialCVData with workExperience := [witnessCurrentExp] }

/- ===================== Claim theorems and helper lemmas ===================== -/

/- ===================== Claim theorems (pure helpers) ===================== -/

/-- C3 counterexample: "toString" is not one of the four known levels, yet
`getSkillLevel "toString"` is not 50 — the bracket lookup finds the
inherited `Object.prototype.toString` member, which `?? 50` (and the legacy
`|| 50`) keeps. -/
theorem skill_level_proto_counterexample :
    ("toString" : String) ∉ (["Beginner", "Intermediate", "Advanced", "Expert"] : List String) ∧
    getSkillLevel "toString" = SkillLevelResult.jsFunction "toString" ∧
    getSkillLevel "toString" ≠ SkillLevelResult.num 50 := by
  refine ⟨by decide, by decide, by decide⟩

/-- C3 (amended): `getSkillLevel` maps exactly Beginner to 25, Intermediate
to 50, Advanced to 75 and Expert to 100, and maps every other level string
to 50 without failing — except the twelve `Object.prototype` member names,
for which the JS bracket lookup returns the inherited member instead of 50
(still without throwing). -/
theorem skill_level_lookup_table :
    getSkillLevel "Beginner" = SkillLevelResult.num 25 ∧
    getSkillLevel "Intermediate" = SkillLevelResult.num 50 ∧
    getSkillLevel "Advanced" = SkillLevelResult.num 75 ∧
    getSkillLevel "Expert" = SkillLevelResult.num 100 ∧
    (∀ level : String,
      level ∉ (["Beginner", "Intermediate", "Advanced", "Expert"] : List String) →
      level ∉ objectPrototypeKeys →
      getSkillLevel level = SkillLevelResult.num 50) ∧
    (∀ level : String, level ∈ objectPrototypeKeys →
      getSkillLevel level = SkillLevelResult.jsFunction level) := by
  refine ⟨rfl, rfl, rfl, rfl, ?_, ?_⟩
  · intro level h hp
    simp only [List.mem_cons, List.not_mem_nil, or_false, not_or] at h
    obtain ⟨h1, h2, h3, h4⟩ := h
    simp [getSkillLevel, jsLookup, skillLevels, h1, h2, h3, h4, hp]
  · intro level hp
    have hown : skillLevels level = none := by
      fin_cases hp <;> rfl
    simp [getSkillLevel, jsLookup, hown, hp]

/-- Witness for C3's amended theorem at the unrecognized level "Master" and
the prototype member name "toString". -/
theorem skill_level_lookup_table_witness :
    getSkillLevel "Master" = SkillLevelResult.num 50 ∧
    getSkillLevel "toString" = SkillLevelResult.jsFunction "toString" :=
  ⟨skill_level_lookup_table.2.2.2.2.1 "Master" (by decide) (by decide),
   skill_level_lookup_table.2.2.2.2.2 "toString" (by decide)⟩

/-- C4 counterexample: "toString" is not a known palette name, yet the
legacy `getColorValues` does not return the slate triple for it — the bare
bracket lookup finds the inherited `Object.prototype.toString` member,
which is truthy, so `|| colorMap.slate` keeps it. -/
theorem color_proto_counterexample :
    ("toString" : String) ∉
      (["slate", "rose", "emerald", "amber", "blue", "orange"] : List String) ∧
    legacyGetColorValues "toString" = ColorLookupResult.jsFunction "toString" ∧
    legacyGetColorValues "toString" ≠ ColorLookupResult.triple (getColorValues "slate") := by
  refine ⟨by decide, by decide, by decide⟩

/-- C4 (amended): the modern (hasOwnProperty-guarded) resolver returns a
\x7bprimary, secondary, accent\x7d triple for every string and resolves every
name outside the six known palettes to the "slate" triple; the legacy
resolver does so too for every unknown name that is not an
`Object.prototype` member, but at a prototype member name it returns the
inherited member instead of a triple. Both variants are total, so neither
throws. -/
theorem color_fallback_to_slate :
    (∀ colorName : String, getColorValues colorName =
      (colorMap colorName).getD slateColors) ∧
    (∀ colorName : String,
      colorName ∉ (["slate", "rose", "emerald", "amber", "blue", "orange"] : List String) →
      getColorValues colorName = getColorValues "slate") ∧
    (∀ colorName : String,
      colorName ∉ (["slate", "rose", "emerald", "amber", "blue", "orange"] : List String) →
      colorName ∉ objectPrototypeKeys →
      legacyGetColorValues colorName = ColorLookupResult.triple (getColorValues "slate")) ∧
    (∀ colorName : String, colorName ∈ objectPrototypeKeys →
      legacyGetColorValues colorName = ColorLookupResult.jsFunction colorName) := by
  refine ⟨fun _ => rfl, ?_, ?_, ?_⟩
  · intro colorName h
    simp only [List.mem_cons, List.not_mem_nil, or_false, not_or] at h
    obtain ⟨h1, h2, h3, h4, h5, h6⟩ := h
    simp [getColorValues, colorMap, slateColors, h1, h2, h3, h4, h5, h6]
  · intro colorName h hp
    simp only [List.mem_cons, List.not_mem_nil, or_false, not_or] at h
    obtain ⟨h1, h2, h3, h4, h5, h6⟩ := h
    simp [legacyGetColorValues, jsLookup, getColorValues, colorMap, slateColors,
      h1, h2, h3, h4, h5, h6, hp]
  · intro colorName hp
    have hown : colorMap colorName = none := by
      fin_cases hp <;> rfl
    simp [legacyGetColorValues, jsLookup, hown, hp]

/-- Witness for C4's amended theorem at the unknown name "not-a-real-color"
(both resolvers fall back to slate) and at the prototype member name
"toString" (the legacy resolver leaks the inherited member). -/
theorem color_fallback_to_slate_witness :
    getColorValues "not-a-real-color" = getColorValues "slate" ∧
    legacyGetColorValues "not-a-real-color" = ColorLookupResult.triple (getColorValues "slate") ∧
    legacyGetColorValues "toString" = ColorLookupResult.jsFunction "toString" :=
  ⟨color_fallback_to_slate.2.1 "not-a-real-color" (by decide),
   color_fallback_to_slate.2.2.1 "not-a-real-color" (by decide) (by decide),
   color_fallback_to_slate.2.2.2 "toString" (by decide)⟩

/-- C6: the on-screen preview scale factor is exactly
`min(containerWidth / 794, 1)`: it never exceeds 1, and it equals
`containerWidth / 794` whenever that ratio is below 1. -/
theorem scale_clamped_at_one (containerWidth : ℚ) :
    computeScale containerWidth = min (containerWidth / 794) 1 ∧
    computeScale containerWidth ≤ 1 ∧
    (containerWidth / 794 < 1 → computeScale containerWidth = containerWidth / 794) := by
  refine ⟨rfl, min_le_right _ _, fun h => ?_⟩
  simpa [computeScale, cvWidth] using min_eq_left h.le

/-- Witness for C6 at containerWidth = 397 (half the canvas width). -/
theorem scale_clamped_at_one_witness :
    (397 : ℚ) / 794 < 1 ∧ computeScale 397 = 397 / 794 :=
  ⟨by norm_num, (scale_clamped_at_one 397).2.2 (by norm_num)⟩

/-- C9 counterexample: the non-empty string "not-a-date" is rendered as
"Invalid Date" by `formatDate`, which is not of the claimed
"\x7babbreviated month\x7d \x7bfull year\x7d" shape. -/
theorem date_format_invalid_counterexample :
    ("not-a-date" : String) ≠ "" ∧
    formatDate "not-a-date" = "Invalid Date" ∧
    startsWithShortMonth (formatDate "not-a-date") = false := by
  refine ⟨by decide, ?_, ?_⟩ <;> decide

/-- C9 (amended): the empty date string renders as the empty string; a
non-empty string that parses as a date renders as
"\x7babbreviated month\x7d \x7bfull year\x7d"; a non-empty string that does not parse
renders as "Invalid Date". -/
theorem date_format_shape (s : String) :
    (s = "" → formatDate s = "") ∧
    (∀ d : ParsedDate, parseJsDate s = some d →
      formatDate s = monthShortName d.month ++ " " ++ toString d.year) ∧
    (s ≠ "" → parseJsDate s = none → formatDate s = "Invalid Date") := by
  refine ⟨fun h => by simp [formatDate, h], fun d hd => ?_, fun hne hn => ?_⟩
  · by_cases h : s = ""
    · subst h
      rw [show parseJsDate "" = none from by decide] at hd
      exact (Option.noConfusion hd)
    · simp [formatDate, h, hd]
  · simp [formatDate, hne, hn]

/-- Witness for C9's amended theorem at the month-input string "2022-03". -/
theorem date_format_shape_witness :
    formatDate "2022-03" = "Mar 2022" :=
  (date_format_shape "2022-03").2.1 ⟨2022, 3⟩ (by decide)

/-- C8: the progress evaluator yields exactly the ordered five sections
Personal Information, Summary, Work Experience, Education, Skills; its
percentage lies in [0, 100]; and the references, languages and
certifications collections never affect the result. -/
theorem completeness_five_sections (d : CVData)
    (r : List Reference) (l : List LanguageEntry) (c : List Certification) :
    (calculateCompleteness d).sections.map SectionStatus.name =
      ["Personal Information", "Summary", "Work Experience", "Education", "Skills"] ∧
    0 ≤ (calculateCompleteness d).percentage ∧
    (calculateCompleteness d).percentage ≤ 100 ∧
    calculateCompleteness { d with references := r, languages := l, certifications := c } =
      calculateCompleteness d := by
  have key : ∀ n : ℕ, n ≤ 5 →
      0 ≤ (round ((n : ℚ) / (5 : ℕ) * 100) : ℤ) ∧
      (round ((n : ℚ) / (5 : ℕ) * 100) : ℤ) ≤ 100 := by
    intro n hn
    have hcast : ((n : ℚ) / (5 : ℕ) * 100) = ((20 * n : ℤ) : ℚ) := by
      push_cast
      ring
    rw [hcast, round_intCast]
    omega
  have hperc : (calculateCompleteness d).percentage =
      round ((((calculateCompleteness d).sections.filter (fun s => s.complete)).length : ℚ) /
        ((5 : ℕ) : ℚ) * 100) := rfl
  have hle : ((calculateCompleteness d).sections.filter (fun s => s.complete)).length ≤ 5 := by
    have := List.length_filter_le (fun s => s.complete) (calculateCompleteness d).sections
    simpa using this
  refine ⟨rfl, ?_, ?_, rfl⟩
  · rw [hperc]; exact (key _ hle).1
  · rw [hperc]; exact (key _ hle).2

/-- C7 counterexample: with the export ref mounted and a template selected,
a rejection of the font-readiness step (a step of the export sequence)
does NOT yield the failure outcome — the empty inner catch swallows it and
the export completes successfully. -/
theorem export_font_reject_not_failure :
    exportStepThrew ⟨true, some "professional", true, false⟩ = true ∧
    handleDownloadPDF ⟨true, some "professional", true, false⟩ = .success ∧
    handleDownloadPDF ⟨true, some "professional", true, false⟩ ≠ .failure := by
  refine ⟨rfl, rfl, by decide⟩

/-- C7 (amended): export is a no-op when the subtree ref is missing (or no
template is selected); an exception of the rasterization collaborator — or of
any step inside the outer try other than the best-effort font wait — is
caught and yields the failure outcome; the pipeline always returns one of
noop/success/failure, never propagating an exception past its boundary. The
one exception to "any step throws implies failure" is the font-readiness
wait, whose rejection is swallowed by an inner empty catch and does not
block the export. -/
theorem export_failure_contained (env : ExportEnv) :
    (env.exportRefPresent = false ∨ env.selectedTemplate = none →
      handleDownloadPDF env = .noop) ∧
    (env.rasterizeThrows = true → env.exportRefPresent = true →
      env.selectedTemplate.isSome = true → handleDownloadPDF env = .failure) ∧
    (handleDownloadPDF env = .noop ∨ handleDownloadPDF env = .success ∨
      handleDownloadPDF env = .failure) := by
  obtain ⟨ref, tmpl, fonts, raster⟩ := env
  refine ⟨?_, ?_, ?_⟩
  · rintro (h | h) <;> subst h <;>
      simp [handleDownloadPDF]
  · rintro rfl rfl h
    obtain ⟨t, rfl⟩ := Option.isSome_iff_exists.mp h
    cases fonts <;> rfl
  · cases ref <;> cases raster <;> cases fonts <;>
      rcases tmpl with _ | t <;>
      simp [handleDownloadPDF, exportTryBlock, awaitFontsBestEffort]

/- ===================== Collector lemmas ===================== -/

theorem tagTextsList_append (tag : String) (xs ys : List Node) :
    tagTextsList tag (xs ++ ys) = tagTextsList tag xs ++ tagTextsList tag ys := by
  induction xs with
  | nil => simp [tagTextsList]
  | cons n ns ih => simp [tagTextsList, ih]

theorem tagTextsList_map_nil {α : Type} (tag : String) (f : α → Node) (l : List α)
    (h : ∀ a, tagTextsNode tag (f a) = []) :
    tagTextsList tag (l.map f) = [] := by
  induction l with
  | nil => simp [tagTextsList]
  | cons a as ih => simp [tagTextsList, h a, ih]

theorem tagTextsList_ite (tag : String) (c : Prop) [Decidable c] (xs ys : List Node) :
    tagTextsList tag (if c then xs else ys) =
      if c then tagTextsList tag xs else tagTextsList tag ys := by
  split <;> rfl

theorem tagTextsNode_text (tag s : String) : tagTextsNode tag (Node.text s) = [] := by
  simp [tagTextsNode]

theorem tagTextsNode_elem (tag t c a : String) (ch : List Node) :
    tagTextsNode tag (Node.elem t c a ch) =
      (if t = tag then directTexts ch else []) ++ tagTextsList tag ch := by
  simp [tagTextsNode]

theorem tagTextsList_nil (tag : String) : tagTextsList tag [] = [] := by
  simp [tagTextsList]

theorem tagTextsList_cons (tag : String) (n : Node) (ns : List Node) :
    tagTextsList tag (n :: ns) = tagTextsNode tag n ++ tagTextsList tag ns := by
  simp [tagTextsList]

theorem tagTexts_respItems (tag : String) (rs : List String) (h : tag ≠ "li") :
    tagTextsList tag (respItems rs) = [] := by
  apply tagTextsList_map_nil
  intro a
  simp [tagTextsNode, tagTextsList, directTexts, Ne.symm h]

theorem tagTexts_skillRowSidebar (tag : String) (st : TemplateStyles) (s : Skill)
    (h : ¬(tag = "div" ∨ tag = "span")) :
    tagTextsNode tag (skillRowSidebar st s) = [] := by
  push_neg at h
  obtain ⟨h1, h2⟩ := h
  simp [skillRowSidebar, tagTextsNode, tagTextsList, directTexts, Ne.symm h1, Ne.symm h2]

theorem tagTexts_skillRowGrid (tag : String) (st : TemplateStyles) (s : Skill)
    (h : ¬(tag = "div" ∨ tag = "span")) :
    tagTextsNode tag (skillRowGrid st s) = [] := by
  push_neg at h
  obtain ⟨h1, h2⟩ := h
  simp [skillRowGrid, tagTextsNode, tagTextsList, directTexts, Ne.symm h1, Ne.symm h2]

theorem tagTexts_languageRowSidebar (tag : String) (l : LanguageEntry)
    (h : ¬(tag = "div" ∨ tag = "span")) :
    tagTextsNode tag (languageRowSidebar l) = [] := by
  push_neg at h
  obtain ⟨h1, h2⟩ := h
  simp [languageRowSidebar, tagTextsNode, tagTextsList, directTexts, Ne.symm h1, Ne.symm h2]

theorem tagTexts_languageRowGrid (tag : String) (l : LanguageEntry)
    (h : ¬(tag = "div" ∨ tag = "span")) :
    tagTextsNode tag (languageRowGrid l) = [] := by
  push_neg at h
  obtain ⟨h1, h2⟩ := h
  simp [languageRowGrid, tagTextsNode, tagTextsList, directTexts, Ne.symm h1, Ne.symm h2]

theorem tagTexts_certItemSidebar (tag : String) (st : TemplateStyles) (c : Certification)
    (h : ¬(tag = "div" ∨ tag = "Award")) :
    tagTextsNode tag (certItemSidebar st c) = [] := by
  push_neg at h
  obtain ⟨h1, h2⟩ := h
  simp [certItemSidebar, tagTextsNode, tagTextsList, directTexts, Ne.symm h1, Ne.symm h2]

theorem tagTexts_certItemGrid (tag : String) (st : TemplateStyles) (c : Certification)
    (h : ¬(tag = "div" ∨ tag = "Award")) :
    tagTextsNode tag (certItemGrid st c) = [] := by
  push_neg at h
  obtain ⟨h1, h2⟩ := h
  simp [certItemGrid, tagTextsNode, tagTextsList, directTexts, Ne.symm h1, Ne.symm h2]

theorem tagTexts_refItemSidebar (tag : String) (st : TemplateStyles) (r : Reference)
    (h : ¬(tag = "div" ∨ tag = "Users")) :
    tagTextsNode tag (refItemSidebar st r) = [] := by
  push_neg at h
  obtain ⟨h1, h2⟩ := h
  simp [refItemSidebar, tagTextsNode, tagTextsList, directTexts, Ne.symm h1, Ne.symm h2]

theorem tagTexts_refItemGrid (tag : String) (st : TemplateStyles) (r : Reference)
    (h : ¬(tag = "div" ∨ tag = "Users")) :
    tagTextsNode tag (refItemGrid st r) = [] := by
  push_neg at h
  obtain ⟨h1, h2⟩ := h
  simp [refItemGrid, tagTextsNode, tagTextsList, directTexts, Ne.symm h1, Ne.symm h2]

theorem tagTexts_expItemTwoCol (tag : String) (st : TemplateStyles) (tid : String)
    (e : WorkExperience)
    (h : ¬(tag = "div" ∨ tag = "h4" ∨ tag = "p" ∨ tag = "Calendar" ∨ tag = "ul" ∨ tag = "li")) :
    tagTextsNode tag (expItemTwoCol st tid e) = [] := by
  push_neg at h
  obtain ⟨h1, h2, h3, h4, h5, h6⟩ := h
  simp [expItemTwoCol, creativeBar, respListTwoCol, tagTextsNode, tagTextsList,
    tagTextsList_append, tagTextsList_ite, directTexts, tagTexts_respItems tag _ h6,
    Ne.symm h1, Ne.symm h2, Ne.symm h3, Ne.symm h4, Ne.symm h5]

theorem tagTexts_expItemSingle (tag : String) (st : TemplateStyles) (tid : String)
    (e : WorkExperience)
    (h : ¬(tag = "div" ∨ tag = "h4" ∨ tag = "p" ∨ tag = "Calendar" ∨ tag = "ul" ∨ tag = "li")) :
    tagTextsNode tag (expItemSingle st tid e) = [] := by
  push_neg at h
  obtain ⟨h1, h2, h3, h4, h5, h6⟩ := h
  simp [expItemSingle, creativeBar, respListSingle, tagTextsNode, tagTextsList,
    tagTextsList_append, tagTextsList_ite, directTexts, tagTexts_respItems tag _ h6,
    Ne.symm h1, Ne.symm h2, Ne.symm h3, Ne.symm h4, Ne.symm h5]

theorem tagTexts_eduItemTwoCol (tag : String) (st : TemplateStyles) (tid : String)
    (e : Education)
    (h : ¬(tag = "div" ∨ tag = "h4" ∨ tag = "p" ∨ tag = "Calendar")) :
    tagTextsNode tag (eduItemTwoCol st tid e) = [] := by
  push_neg at h
  obtain ⟨h1, h2, h3, h4⟩ := h
  simp [eduItemTwoCol, creativeBar, tagTextsNode, tagTextsList,
    tagTextsList_append, tagTextsList_ite, directTexts,
    Ne.symm h1, Ne.symm h2, Ne.symm h3, Ne.symm h4]

theorem tagTexts_eduItemGrid (tag : String) (st : TemplateStyles) (e : Education)
    (h : ¬(tag = "div" ∨ tag = "h4" ∨ tag = "p")) :
    tagTextsNode tag (eduItemGrid st e) = [] := by
  push_neg at h
  obtain ⟨h1, h2, h3⟩ := h
  simp [eduItemGrid, tagTextsNode, tagTextsList,
    tagTextsList_append, tagTextsList_ite, directTexts,
    Ne.symm h1, Ne.symm h2, Ne.symm h3]

theorem tagTexts_sidebarHeading (tag : String) (st : TemplateStyles) (title : String)
    (h : tag ≠ "h3") :
    tagTextsNode tag (sidebarHeading st title) = [] := by
  simp [sidebarHeading, tagTextsNode, tagTextsList, directTexts, Ne.symm h]

theorem h3Texts_sidebarHeading (st : TemplateStyles) (title : String) :
    tagTextsNode "h3" (sidebarHeading st title) = [title] := by
  simp [sidebarHeading, tagTextsNode, tagTextsList, directTexts]

theorem tagTexts_gridHeading (tag : String) (st : TemplateStyles) (title : String)
    (h : tag ≠ "h3") :
    tagTextsNode tag (gridHeading st title) = [] := by
  simp [gridHeading, tagTextsNode, tagTextsList, directTexts, Ne.symm h]

theorem h3Texts_gridHeading (st : TemplateStyles) (title : String) :
    tagTextsNode "h3" (gridHeading st title) = [title] := by
  simp [gridHeading, tagTextsNode, tagTextsList, directTexts]

theorem tagTexts_contactSectionSidebar (tag : String) (st : TemplateStyles) (pi : PersonalInfo)
    (h : ¬(tag = "div" ∨ tag = "h3" ∨ tag = "span" ∨ tag = "Mail" ∨ tag = "Phone" ∨
           tag = "MapPin" ∨ tag = "Globe")) :
    tagTextsNode tag (contactSectionSidebar st pi) = [] := by
  push_neg at h
  obtain ⟨h1, h2, h3, h4, h5, h6, h7⟩ := h
  simp [contactSectionSidebar, sidebarContactRow, tagTexts_sidebarHeading tag st _ h2,
    tagTextsNode_text, tagTextsNode_elem, tagTextsList_nil, tagTextsList_cons,
    tagTextsList_append, tagTextsList_ite, directTexts,
    Ne.symm h1, Ne.symm h3, Ne.symm h4, Ne.symm h5, Ne.symm h6, Ne.symm h7]

theorem h3Texts_contactSectionSidebar (st : TemplateStyles) (pi : PersonalInfo) :
    tagTextsNode "h3" (contactSectionSidebar st pi) = ["Contact"] := by
  simp [contactSectionSidebar, sidebarContactRow, h3Texts_sidebarHeading,
    tagTextsNode_text, tagTextsNode_elem, tagTextsList_nil, tagTextsList_cons,
    tagTextsList_append, tagTextsList_ite, directTexts]

theorem tagTexts_photoSectionSidebar (tag : String) (st : TemplateStyles) (pi : PersonalInfo)
    (h : ¬(tag = "div" ∨ tag = "img")) :
    tagTextsNode tag (photoSectionSidebar st pi) = [] := by
  push_neg at h
  obtain ⟨h1, h2⟩ := h
  simp [photoSectionSidebar, tagTextsNode, tagTextsList, directTexts, Ne.symm h1, Ne.symm h2]

theorem tagTexts_headerContactRows (tag : String) (pi : PersonalInfo)
    (h : ¬(tag = "div" ∨ tag = "Mail" ∨ tag = "Phone" ∨ tag = "MapPin")) :
    tagTextsList tag (headerContactRows pi) = [] := by
  push_neg at h
  obtain ⟨h1, h2, h3, h4⟩ := h
  simp [headerContactRows, headerContactRow, tagTextsNode, tagTextsList,
    tagTextsList_append, tagTextsList_ite, directTexts,
    Ne.symm h1, Ne.symm h2, Ne.symm h3, Ne.symm h4]

theorem tagTexts_twoColHeader (tag : String) (st : TemplateStyles) (tid : String)
    (pi : PersonalInfo)
    (h : ¬(tag = "div" ∨ tag = "h1" ∨ tag = "p")) :
    tagTextsNode tag (twoColHeader st tid pi) = [] := by
  push_neg at h
  obtain ⟨h1, h2, h3⟩ := h
  simp [twoColHeader, tagTextsNode, tagTextsList, tagTextsList_append, tagTextsList_ite,
    directTexts, Ne.symm h1, Ne.symm h2, Ne.symm h3]

theorem h1Texts_twoColHeader (st : TemplateStyles) (tid : String) (pi : PersonalInfo) :
    tagTextsNode "h1" (twoColHeader st tid pi) = [jsOrString pi.fullName "Your Name"] := by
  by_cases h : tid = "minimal" <;>
    simp [twoColHeader, h, tagTextsNode, tagTextsList, tagTextsList_append,
      tagTextsList_ite, directTexts]

theorem pTexts_twoColHeader (st : TemplateStyles) (tid : String) (pi : PersonalInfo) :
    tagTextsNode "p" (twoColHeader st tid pi) = [jsOrString pi.jobTitle "Your Job Title"] := by
  by_cases h : tid = "minimal" <;>
    simp [twoColHeader, h, tagTextsNode, tagTextsList, tagTextsList_append,
      tagTextsList_ite, directTexts]

theorem tagTexts_singleColHeader (tag : String) (st : TemplateStyles) (tm : CVTemplate)
    (pi : PersonalInfo)
    (h : ¬(tag = "div" ∨ tag = "img" ∨ tag = "h1" ∨ tag = "p" ∨ tag = "Mail" ∨
           tag = "Phone" ∨ tag = "MapPin")) :
    tagTextsNode tag (singleColHeader st tm pi) = [] := by
  push_neg at h
  obtain ⟨h1, h2, h3, h4, h5, h6, h7⟩ := h
  simp [singleColHeader, tagTextsNode_text, tagTextsNode_elem, tagTextsList_nil,
    tagTextsList_cons, tagTextsList_append, tagTextsList_ite,
    directTexts, tagTexts_headerContactRows tag pi (by push_neg; exact ⟨h1, h5, h6, h7⟩),
    Ne.symm h1, Ne.symm h2, Ne.symm h3, Ne.symm h4]

theorem h1Texts_singleColHeader (st : TemplateStyles) (tm : CVTemplate) (pi : PersonalInfo) :
    tagTextsNode "h1" (singleColHeader st tm pi) = [jsOrString pi.fullName "Your Name"] := by
  by_cases h : tm.id = "minimal" <;>
    simp [singleColHeader, h, tagTextsNode_text, tagTextsNode_elem, tagTextsList_nil,
      tagTextsList_cons, tagTextsList_append, tagTextsList_ite, directTexts,
      tagTexts_headerContactRows "h1" pi (by decide)]

theorem pTexts_singleColHeader (st : TemplateStyles) (tm : CVTemplate) (pi : PersonalInfo) :
    tagTextsNode "p" (singleColHeader st tm pi) = [jsOrString pi.jobTitle "Your Job Title"] := by
  by_cases h : tm.id = "minimal" <;>
    simp [singleColHeader, h, tagTextsNode_text, tagTextsNode_elem, tagTextsList_nil,
      tagTextsList_cons, tagTextsList_append, tagTextsList_ite, directTexts,
      tagTexts_headerContactRows "p" pi (by decide)]

theorem h3Texts_twoColSidebar (st : TemplateStyles) (tm : CVTemplate) (d : CVData) :
    tagTextsNode "h3" (twoColSidebar st tm d) =
      ["Contact"] ++
      (if d.skills.length > 0 then ["Skills"] else []) ++
      (if d.languages.length > 0 then ["Languages"] else []) ++
      (if d.certifications.length > 0 then ["Certifications"] else []) ++
      (if d.references.length > 0 then ["References"] else []) := by
  have hsk : ∀ s, tagTextsNode "h3" (skillRowSidebar st s) = [] :=
    fun s => tagTexts_skillRowSidebar _ _ _ (by decide)
  have hla : ∀ l, tagTextsNode "h3" (languageRowSidebar l) = [] :=
    fun l => tagTexts_languageRowSidebar _ _ (by decide)
  have hce : ∀ c, tagTextsNode "h3" (certItemSidebar st c) = [] :=
    fun c => tagTexts_certItemSidebar _ _ _ (by decide)
  have hre : ∀ r, tagTextsNode "h3" (refItemSidebar st r) = [] :=
    fun r => tagTexts_refItemSidebar _ _ _ (by decide)
  simp [twoColSidebar, h3Texts_contactSectionSidebar, h3Texts_sidebarHeading,
    tagTexts_photoSectionSidebar "h3" st _ (by decide),
    tagTextsNode_text, tagTextsNode_elem, tagTextsList_nil, tagTextsList_cons,
    tagTextsList_append, tagTextsList_ite, directTexts,
    tagTextsList_map_nil _ _ _ hsk, tagTextsList_map_nil _ _ _ hla,
    tagTextsList_map_nil _ _ _ hce, tagTextsList_map_nil _ _ _ hre]

theorem h3Texts_twoColContent (st : TemplateStyles) (tid : String) (d : CVData) :
    tagTextsNode "h3" (twoColContent st tid d) =
      (if jsTruthy d.summary then ["Professional Summary"] else []) ++
      (if d.workExperience.length > 0 then ["Work Experience"] else []) ++
      (if d.education.length > 0 then ["Education"] else []) := by
  have hex : ∀ e, tagTextsNode "h3" (expItemTwoCol st tid e) = [] :=
    fun e => tagTexts_expItemTwoCol _ _ _ _ (by decide)
  have hed : ∀ e, tagTextsNode "h3" (eduItemTwoCol st tid e) = [] :=
    fun e => tagTexts_eduItemTwoCol _ _ _ _ (by decide)
  simp [twoColContent, tagTexts_twoColHeader "h3" st tid _ (by decide),
    tagTextsNode_text, tagTextsNode_elem, tagTextsList_nil, tagTextsList_cons,
    tagTextsList_append, tagTextsList_ite, directTexts,
    tagTextsList_map_nil _ _ _ hex, tagTextsList_map_nil _ _ _ hed]

theorem h3Texts_twoColumnLayout (d : CVData) (tm : CVTemplate) (p pdf ub : Bool) :
    tagTextsNode "h3" (twoColumnLayout d tm p pdf ub) =
      ["Contact"] ++
      (if d.skills.length > 0 then ["Skills"] else []) ++
      (if d.languages.length > 0 then ["Languages"] else []) ++
      (if d.certifications.length > 0 then ["Certifications"] else []) ++
      (if d.references.length > 0 then ["References"] else []) ++
      (if jsTruthy d.summary then ["Professional Summary"] else []) ++
      (if d.workExperience.length > 0 then ["Work Experience"] else []) ++
      (if d.education.length > 0 then ["Education"] else []) := by
  simp [twoColumnLayout, styleNode, h3Texts_twoColSidebar, h3Texts_twoColContent,
    tagTextsNode_text, tagTextsNode_elem, tagTextsList_nil, tagTextsList_cons,
    tagTextsList_append, directTexts]

theorem h3Texts_singleColumnLayout (d : CVData) (tm : CVTemplate) (p pdf ub : Bool) :
    tagTextsNode "h3" (singleColumnLayout d tm p pdf ub) =
      (if jsTruthy d.summary then ["Professional Summary"] else []) ++
      (if d.workExperience.length > 0 then ["Work Experience"] else []) ++
      (if d.education.length > 0 then ["Education"] else []) ++
      (if d.skills.length > 0 then ["Skills"] else []) ++
      (if d.languages.length > 0 then ["Languages"] else []) ++
      (if d.certifications.length > 0 then ["Certifications"] else []) ++
      (if d.references.length > 0 then ["References"] else []) := by
  have hex : ∀ e, tagTextsNode "h3" (expItemSingle (getTemplateStyles tm) tm.id e) = [] :=
    fun e => tagTexts_expItemSingle _ _ _ _ (by decide)
  have hed : ∀ e, tagTextsNode "h3" (eduItemGrid (getTemplateStyles tm) e) = [] :=
    fun e => tagTexts_eduItemGrid _ _ _ (by decide)
  have hsk : ∀ s, tagTextsNode "h3" (skillRowGrid (getTemplateStyles tm) s) = [] :=
    fun s => tagTexts_skillRowGrid _ _ _ (by decide)
  have hla : ∀ l, tagTextsNode "h3" (languageRowGrid l) = [] :=
    fun l => tagTexts_languageRowGrid _ _ (by decide)
  have hce : ∀ c, tagTextsNode "h3" (certItemGrid (getTemplateStyles tm) c) = [] :=
    fun c => tagTexts_certItemGrid _ _ _ (by decide)
  have hre : ∀ r, tagTextsNode "h3" (refItemGrid (getTemplateStyles tm) r) = [] :=
    fun r => tagTexts_refItemGrid _ _ _ (by decide)
  simp [singleColumnLayout, styleNode, h3Texts_gridHeading,
    tagTexts_singleColHeader "h3" (getTemplateStyles tm) tm _ (by decide),
    tagTextsNode_text, tagTextsNode_elem, tagTextsList_nil, tagTextsList_cons,
    tagTextsList_append, tagTextsList_ite, directTexts,
    tagTextsList_map_nil _ _ _ hex, tagTextsList_map_nil _ _ _ hed,
    tagTextsList_map_nil _ _ _ hsk, tagTextsList_map_nil _ _ _ hla,
    tagTextsList_map_nil _ _ _ hce, tagTextsList_map_nil _ _ _ hre]

theorem h1Texts_twoColSidebar (st : TemplateStyles) (tm : CVTemplate) (d : CVData) :
    tagTextsNode "h1" (twoColSidebar st tm d) = [] := by
  have hsk : ∀ s, tagTextsNode "h1" (skillRowSidebar st s) = [] :=
    fun s => tagTexts_skillRowSidebar _ _ _ (by decide)
  have hla : ∀ l, tagTextsNode "h1" (languageRowSidebar l) = [] :=
    fun l => tagTexts_languageRowSidebar _ _ (by decide)
  have hce : ∀ c, tagTextsNode "h1" (certItemSidebar st c) = [] :=
    fun c => tagTexts_certItemSidebar _ _ _ (by decide)
  have hre : ∀ r, tagTextsNode "h1" (refItemSidebar st r) = [] :=
    fun r => tagTexts_refItemSidebar _ _ _ (by decide)
  simp [twoColSidebar, tagTexts_contactSectionSidebar "h1" st _ (by decide),
    tagTexts_sidebarHeading "h1" st _ (by decide),
    tagTexts_photoSectionSidebar "h1" st _ (by decide),
    tagTextsNode_text, tagTextsNode_elem, tagTextsList_nil, tagTextsList_cons,
    tagTextsList_append, tagTextsList_ite, directTexts,
    tagTextsList_map_nil _ _ _ hsk, tagTextsList_map_nil _ _ _ hla,
    tagTextsList_map_nil _ _ _ hce, tagTextsList_map_nil _ _ _ hre]

theorem h1Texts_twoColContent (st : TemplateStyles) (tid : String) (d : CVData) :
    tagTextsNode "h1" (twoColContent st tid d) =
      [jsOrString d.personalInfo.fullName "Your Name"] := by
  have hex : ∀ e, tagTextsNode "h1" (expItemTwoCol st tid e) = [] :=
    fun e => tagTexts_expItemTwoCol _ _ _ _ (by decide)
  have hed : ∀ e, tagTextsNode "h1" (eduItemTwoCol st tid e) = [] :=
    fun e => tagTexts_eduItemTwoCol _ _ _ _ (by decide)
  simp [twoColContent, h1Texts_twoColHeader,
    tagTextsNode_text, tagTextsNode_elem, tagTextsList_nil, tagTextsList_cons,
    tagTextsList_append, tagTextsList_ite, directTexts,
    tagTextsList_map_nil _ _ _ hex, tagTextsList_map_nil _ _ _ hed]

theorem h1Texts_twoColumnLayout (d : CVData) (tm : CVTemplate) (p pdf ub : Bool) :
    tagTextsNode "h1" (twoColumnLayout d tm p pdf ub) =
      [jsOrString d.personalInfo.fullName "Your Name"] := by
  simp [twoColumnLayout, styleNode, h1Texts_twoColSidebar, h1Texts_twoColContent,
    tagTextsNode_text, tagTextsNode_elem, tagTextsList_nil, tagTextsList_cons,
    tagTextsList_append, directTexts]

theorem h1Texts_singleColumnLayout (d : CVData) (tm : CVTemplate) (p pdf ub : Bool) :
    tagTextsNode "h1" (singleColumnLayout d tm p pdf ub) =
      [jsOrString d.personalInfo.fullName "Your Name"] := by
  have hex : ∀ e, tagTextsNode "h1" (expItemSingle (getTemplateStyles tm) tm.id e) = [] :=
    fun e => tagTexts_expItemSingle _ _ _ _ (by decide)
  have hed : ∀ e, tagTextsNode "h1" (eduItemGrid (getTemplateStyles tm) e) = [] :=
    fun e => tagTexts_eduItemGrid _ _ _ (by decide)
  have hsk : ∀ s, tagTextsNode "h1" (skillRowGrid (getTemplateStyles tm) s) = [] :=
    fun s => tagTexts_skillRowGrid _ _ _ (by decide)
  have hla : ∀ l, tagTextsNode "h1" (languageRowGrid l) = [] :=
    fun l => tagTexts_languageRowGrid _ _ (by decide)
  have hce : ∀ c, tagTextsNode "h1" (certItemGrid (getTemplateStyles tm) c) = [] :=
    fun c => tagTexts_certItemGrid _ _ _ (by decide)
  have hre : ∀ r, tagTextsNode "h1" (refItemGrid (getTemplateStyles tm) r) = [] :=
    fun r => tagTexts_refItemGrid _ _ _ (by decide)
  simp [singleColumnLayout, styleNode, h1Texts_singleColHeader,
    tagTexts_gridHeading "h1" (getTemplateStyles tm) _ (by decide),
    tagTextsNode_text, tagTextsNode_elem, tagTextsList_nil, tagTextsList_cons,
    tagTextsList_append, tagTextsList_ite, directTexts,
    tagTextsList_map_nil _ _ _ hex, tagTextsList_map_nil _ _ _ hed,
    tagTextsList_map_nil _ _ _ hsk, tagTextsList_map_nil _ _ _ hla,
    tagTextsList_map_nil _ _ _ hce, tagTextsList_map_nil _ _ _ hre]

theorem h1Texts_renderCV (d : CVData) (t : CVTemplate) (p pdf fp ub : Bool) :
    tagTextsNode "h1" (renderCV d t p pdf fp ub) =
      [jsOrString d.personalInfo.fullName "Your Name"] := by
  by_cases hcol : t.columns = 2 <;> cases fp <;>
    simp [renderCV, hcol, h1Texts_twoColumnLayout, h1Texts_singleColumnLayout,
      tagTextsNode_text, tagTextsNode_elem, tagTextsList_nil, tagTextsList_cons,
      directTexts]

theorem h3Texts_renderCV (d : CVData) (t : CVTemplate) (p pdf fp ub : Bool) :
    tagTextsNode "h3" (renderCV d t p pdf fp ub) =
      (if t.columns = 2 then
        ["Contact"] ++
        (if d.skills.length > 0 then ["Skills"] else []) ++
        (if d.languages.length > 0 then ["Languages"] else []) ++
        (if d.certifications.length > 0 then ["Certifications"] else []) ++
        (if d.references.length > 0 then ["References"] else []) ++
        (if jsTruthy d.summary then ["Professional Summary"] else []) ++
        (if d.workExperience.length > 0 then ["Work Experience"] else []) ++
        (if d.education.length > 0 then ["Education"] else [])
       else
        (if jsTruthy d.summary then ["Professional Summary"] else []) ++
        (if d.workExperience.length > 0 then ["Work Experience"] else []) ++
        (if d.education.length > 0 then ["Education"] else []) ++
        (if d.skills.length > 0 then ["Skills"] else []) ++
        (if d.languages.length > 0 then ["Languages"] else []) ++
        (if d.certifications.length > 0 then ["Certifications"] else []) ++
        (if d.references.length > 0 then ["References"] else [])) := by
  by_cases hcol : t.columns = 2 <;> cases fp <;>
    simp [renderCV, hcol, h3Texts_twoColumnLayout, h3Texts_singleColumnLayout,
      tagTextsNode_text, tagTextsNode_elem, tagTextsList_nil, tagTextsList_cons,
      directTexts]

theorem mem_ite_singleton {α : Type} [DecidableEq α] (a b : α) (c : Prop) [Decidable c] :
    (a ∈ (if c then [b] else ([] : List α))) ↔ (c ∧ a = b) := by
  split <;> simp_all

/-- C5 counterexample: with CVBuilder's all-empty `initialCVData` and the
two-column professional template, the rendered tree still contains the
Contact section heading although every backing contact field is empty —
the "each section is rendered iff its backing data is non-empty" rule fails
for the Contact block. -/
theorem contact_rendered_despite_empty_data :
    initialCVData.personalInfo.email = "" ∧ initialCVData.personalInfo.phone = "" ∧
    initialCVData.personalInfo.address = "" ∧ initialCVData.personalInfo.website = "" ∧
    "Contact" ∈ tagTextsNode "h3"
      (renderCV initialCVData professionalTemplate false false false false) := by
  refine ⟨rfl, rfl, rfl, rfl, ?_⟩
  rw [h3Texts_renderCV]
  simp [initialCVData, professionalTemplate, jsTruthy]

/-- C5 (amended): an empty skills list yields no Skills section in either
column layout, and each data-backed section (Skills, Languages,
Certifications, References, Professional Summary, Work Experience,
Education) appears iff its backing data is non-empty; the exception to the
general rule is the two-column sidebar's Contact block, whose heading is
rendered unconditionally even when all contact fields are empty (the photo
slot is likewise template-driven, not data-driven). -/
theorem section_rendered_iff_nonempty (d : CVData) (t : CVTemplate) (p pdf fp ub : Bool) :
    (d.skills = [] → "Skills" ∉ tagTextsNode "h3" (renderCV d t p pdf fp ub)) ∧
    ("Skills" ∈ tagTextsNode "h3" (renderCV d t p pdf fp ub) ↔ d.skills ≠ []) ∧
    ("Languages" ∈ tagTextsNode "h3" (renderCV d t p pdf fp ub) ↔ d.languages ≠ []) ∧
    ("Certifications" ∈ tagTextsNode "h3" (renderCV d t p pdf fp ub) ↔ d.certifications ≠ []) ∧
    ("References" ∈ tagTextsNode "h3" (renderCV d t p pdf fp ub) ↔ d.references ≠ []) ∧
    ("Professional Summary" ∈ tagTextsNode "h3" (renderCV d t p pdf fp ub) ↔ d.summary ≠ "") ∧
    ("Work Experience" ∈ tagTextsNode "h3" (renderCV d t p pdf fp ub) ↔ d.workExperience ≠ []) ∧
    ("Education" ∈ tagTextsNode "h3" (renderCV d t p pdf fp ub) ↔ d.education ≠ []) ∧
    (t.columns = 2 → "Contact" ∈ tagTextsNode "h3" (renderCV d t p pdf fp ub)) := by
  rw [h3Texts_renderCV]
  have hmem : ∀ L : List String, ∀ a : String,
      (a ∈ L ↔ a ∈ L) := fun _ _ => Iff.rfl
  by_cases hcol : t.columns = 2 <;>
    refine ⟨?_, ?_, ?_, ?_, ?_, ?_, ?_, ?_, ?_⟩ <;>
    simp [hcol, mem_ite_singleton, List.mem_append, List.length_pos, jsTruthy,
      List.mem_singleton]

/-- Witness for C5's amended theorem at a concrete data/template pair: empty
skills yields no Skills heading, and the Contact heading is present in the
two-column layout. -/
theorem section_rendered_iff_nonempty_witness :
    initialCVData.skills = [] ∧
    "Skills" ∉ tagTextsNode "h3"
      (renderCV initialCVData professionalTemplate false false false false) ∧
    "Contact" ∈ tagTextsNode "h3"
      (renderCV initialCVData professionalTemplate false false false false) := by
  obtain ⟨h1, _, _, _, _, _, _, _, h9⟩ :=
    section_rendered_iff_nonempty initialCVData professionalTemplate false false false false
  exact ⟨rfl, h1 rfl, h9 rfl⟩

theorem twoColHeader_fullName_sub (st : TemplateStyles) (tid : String) (pi : PersonalInfo)
    (h : pi.fullName = "") :
    twoColHeader st tid pi = twoColHeader st tid { pi with fullName := "Your Name" } := by
  simp [twoColHeader, jsOrString, h]

theorem twoColHeader_jobTitle_sub (st : TemplateStyles) (tid : String) (pi : PersonalInfo)
    (h : pi.jobTitle = "") :
    twoColHeader st tid pi = twoColHeader st tid { pi with jobTitle := "Your Job Title" } := by
  simp [twoColHeader, jsOrString, h]

theorem singleColHeader_fullName_sub (st : TemplateStyles) (tm : CVTemplate)
    (pi : PersonalInfo) (h : pi.fullName = "") :
    singleColHeader st tm pi = singleColHeader st tm { pi with fullName := "Your Name" } := by
  simp [singleColHeader, headerContactRows, jsOrString, h]

theorem singleColHeader_jobTitle_sub (st : TemplateStyles) (tm : CVTemplate)
    (pi : PersonalInfo) (h : pi.jobTitle = "") :
    singleColHeader st tm pi = singleColHeader st tm { pi with jobTitle := "Your Job Title" } := by
  simp [singleColHeader, headerContactRows, jsOrString, h]

/-- C10: in every template and both column layouts, the header's h1 displays
`fullName || "Your Name"` (so the empty name falls back to "Your Name" and a
non-empty one is shown verbatim); the header's job-title line displays
`jobTitle || "Your Job Title"`; and rendering with an empty field equals
rendering with the fallback text stored in that field. -/
theorem header_placeholder_fallbacks (d : CVData) (t : CVTemplate) (p pdf fp ub : Bool) :
    tagTextsNode "h1" (renderCV d t p pdf fp ub) =
      [jsOrString d.personalInfo.fullName "Your Name"] ∧
    tagTextsNode "p" (twoColHeader (getTemplateStyles t) t.id d.personalInfo) =
      [jsOrString d.personalInfo.jobTitle "Your Job Title"] ∧
    tagTextsNode "p" (singleColHeader (getTemplateStyles t) t d.personalInfo) =
      [jsOrString d.personalInfo.jobTitle "Your Job Title"] ∧
    (d.personalInfo.fullName = "" →
      renderCV d t p pdf fp ub =
        renderCV { d with personalInfo := { d.personalInfo with fullName := "Your Name" } }
          t p pdf fp ub) ∧
    (d.personalInfo.jobTitle = "" →
      renderCV d t p pdf fp ub =
        renderCV { d with personalInfo := { d.personalInfo with jobTitle := "Your Job Title" } }
          t p pdf fp ub) := by
  refine ⟨h1Texts_renderCV d t p pdf fp ub, pTexts_twoColHeader _ _ _,
    pTexts_singleColHeader _ _ _, ?_, ?_⟩
  · intro h
    have h2 := twoColHeader_fullName_sub (getTemplateStyles t) t.id d.personalInfo h
    have h1 := singleColHeader_fullName_sub (getTemplateStyles t) t d.personalInfo h
    by_cases hcol : t.columns = 2 <;> cases fp <;>
      simp [renderCV, hcol, twoColumnLayout, singleColumnLayout, twoColContent,
        twoColSidebar, contactSectionSidebar, photoSectionSidebar, h2, h1]
  · intro h
    have h2 := twoColHeader_jobTitle_sub (getTemplateStyles t) t.id d.personalInfo h
    have h1 := singleColHeader_jobTitle_sub (getTemplateStyles t) t d.personalInfo h
    by_cases hcol : t.columns = 2 <;> cases fp <;>
      simp [renderCV, hcol, twoColumnLayout, singleColumnLayout, twoColContent,
        twoColSidebar, contactSectionSidebar, photoSectionSidebar, h2, h1]

/-- Witness for C10 at `initialCVData` (whose name/title fields are empty). -/
theorem header_placeholder_fallbacks_witness :
    renderCV initialCVData professionalTemplate false false false false =
      renderCV { initialCVData with
        personalInfo := { initialCVData.personalInfo with fullName := "Your Name" } }
        professionalTemplate false false false false ∧
    renderCV initialCVData professionalTemplate false false false false =
      renderCV { initialCVData with
        personalInfo := { initialCVData.personalInfo with jobTitle := "Your Job Title" } }
        professionalTemplate false false false false := by
  obtain ⟨-, -, -, h4, h5⟩ :=
    header_placeholder_fallbacks initialCVData professionalTemplate false false false false
  exact ⟨h4 rfl, h5 rfl⟩

theorem map_set_of_get {α β : Type} (l : List α) (i : ℕ) (e e' : α) (f : α → β)
    (hget : l.get? i = some e) (hfe : f e' = f e) :
    (l.set i e').map f = l.map f := by
  induction l generalizing i with
  | nil => simp at hget
  | cons x xs ih =>
    cases i with
    | zero =>
      simp only [List.get?] at hget
      obtain rfl : x = e := Option.some.inj hget
      simp [List.set, hfe]
    | succ n =>
      simp only [List.get?] at hget
      simp [List.set, ih n hget]

/-- C2: a work-experience entry with `current = true` renders "Present" as
its end date, and the rendered tree — in both column layouts — is unchanged
under any rewrite of that entry's stored `endDate`, so the stored end date
is never displayed. -/
theorem current_job_displays_present (d : CVData) (i : ℕ) (e : WorkExperience)
    (newEnd : String) (t : CVTemplate) (p pdf fp ub : Bool)
    (hget : d.workExperience.get? i = some e) (hcur : e.current = true) :
    expDateText e = formatDate e.startDate ++ " - " ++ "Present" ∧
    renderCV { d with workExperience := d.workExperience.set i { e with endDate := newEnd } }
        t p pdf fp ub
      = renderCV d t p pdf fp ub := by
  refine ⟨by simp [expDateText, hcur], ?_⟩
  have hitem2 : expItemTwoCol (getTemplateStyles t) t.id { e with endDate := newEnd }
      = expItemTwoCol (getTemplateStyles t) t.id e := by
    simp [expItemTwoCol, expDateText, respListTwoCol, hcur]
  have hitem1 : expItemSingle (getTemplateStyles t) t.id { e with endDate := newEnd }
      = expItemSingle (getTemplateStyles t) t.id e := by
    simp [expItemSingle, expDateText, respListSingle, hcur]
  have hmap2 := map_set_of_get d.workExperience i e _
    (expItemTwoCol (getTemplateStyles t) t.id) hget hitem2
  have hmap1 := map_set_of_get d.workExperience i e _
    (expItemSingle (getTemplateStyles t) t.id) hget hitem1
  by_cases hcol : t.columns = 2 <;> cases fp <;>
    simp [renderCV, hcol, twoColumnLayout, singleColumnLayout, twoColContent, twoColSidebar,
      List.length_set, hmap2, hmap1]

/-- Witness for C2 at the concrete current job above. -/
theorem current_job_displays_present_witness :
    expDateText witnessCurrentExp =
      formatDate witnessCurrentExp.startDate ++ " - " ++ "Present" ∧
    renderCV { witnessCVData with
        workExperience := witnessCVData.workExperience.set 0
          { witnessCurrentExp with endDate := "2099-12" } }
        professionalTemplate false false false false
      = renderCV witnessCVData professionalTemplate false false false false :=
  current_job_displays_present witnessCVData 0 witnessCurrentExp "2099-12"
    professionalTemplate false false false false rfl rfl

/-- C1 counterexample: rendering the legacy CVPreview variant is not free of
writes outside its output — mounting it with the professional template
mutates the shared document-root style state (it sets the three
`--template-*` custom properties). -/
theorem legacy_render_writes_global_state :
    legacyInjectTemplateColors professionalTemplate emptyDocumentRootStyles ≠
      emptyDocumentRootStyles := by
  decide

/-- C1 (amended): rendering is idempotent — identical
`(data, template, mode)` inputs give structurally identical trees — and the
renderer reads no hidden mutable state (the output is a function of its
arguments alone). The updated CVPreview variant also writes nothing outside
its output (its document-level effect is the identity); the legacy variant,
however, writes the three `--template-*` CSS custom properties derived from
the template color onto the shared document root (removing them on
unmount). -/
theorem render_idempotent_and_scoped (d : CVData) (t : CVTemplate) (p pdf fp ub : Bool)
    (root : DocumentRootStyles) :
    renderCV d t p pdf fp ub = renderCV d t p pdf fp ub ∧
    modernRenderDocumentEffect t root = root ∧
    legacyInjectTemplateColors t root =
      ⟨some (getColorValues t.color).primary, some (getColorValues t.color).secondary,
       some (getColorValues t.color).accent⟩ ∧
    legacyRemoveTemplateColors (legacyInjectTemplateColors t root) = emptyDocumentRootStyles :=
  ⟨rfl, rfl, rfl, rfl⟩

/-- Witness for C7's amended theorem: a throwing collaborator yields the
failure outcome, and a missing export ref yields the no-op. -/
theorem export_failure_contained_witness :
    handleDownloadPDF ⟨true, some "professional", false, true⟩ = .failure ∧
    handleDownloadPDF ⟨false, none, false, false⟩ = .noop := by
  refine ⟨(export_failure_contained ⟨true, some "professional", false, true⟩).2.1 rfl rfl rfl,
    (export_failure_contained ⟨false, none, false, false⟩).1 (Or.inl rfl)⟩
